import Mathlib

/-!
Verification development for the salto-mcp-telegram repository.

The TypeScript sources are shallowly embedded as executable Lean
definitions:

* JavaScript / JSON values are modelled by the inductive `Json`
  (numbers as `Int`, which covers every value the code inspects);
* JS exceptions of class `AppError` (src/utils/errors.ts) are
  modelled by the structure `AppErr` carrying `statusCode`, `code`
  and `message` (the free-form `details` payload, used only for
  logging context, is not modelled);
* fallible code returns `Except AppErr`;
* external collaborators (the HTTP transport, `Buffer.from`,
  `new URL`, `crypto.randomUUID`) are passed in as explicit
  function parameters so that every definition stays executable.
-/

namespace Salto

/-- Model of a JSON / JavaScript structured value.  Numbers are
modelled as `Int`: every numeric value the embedded code inspects
(chat ids, correlation ids, HTTP statuses) is integral. -/
inductive Json where
  | null
  | bool (b : Bool)
  | num (n : Int)
  | str (s : String)
  | arr (elems : List Json)
  | obj (fields : List (String × Json))
deriving Repr

/-- Model of `AppError` from src/utils/errors.ts: HTTP-ish status
code, machine readable error code, human message. -/
structure AppErr where
  statusCode : Nat
  code : String
  message : String
deriving Repr, DecidableEq

/-- Error codes from src/utils/errors.ts (`ErrorCodes`). -/
def ErrorCodes.INVALID_JSON : String := "INVALID_JSON"

def ErrorCodes.INVALID_REQUEST : String := "INVALID_REQUEST"

def ErrorCodes.TELEGRAM_CHAT_NOT_ALLOWED : String := "TELEGRAM_CHAT_NOT_ALLOWED"

def ErrorCodes.TELEGRAM_CHAT_NOT_FOUND : String := "TELEGRAM_CHAT_NOT_FOUND"

def ErrorCodes.TELEGRAM_FORBIDDEN : String := "TELEGRAM_FORBIDDEN"

def ErrorCodes.TELEGRAM_BAD_REQUEST : String := "TELEGRAM_BAD_REQUEST"

def ErrorCodes.TELEGRAM_API_ERROR : String := "TELEGRAM_API_ERROR"

def ErrorCodes.TELEGRAM_MESSAGE_NOT_DELIVERED : String := "TELEGRAM_MESSAGE_NOT_DELIVERED"

def ErrorCodes.TELEGRAM_DOCUMENT_TOO_LARGE : String := "TELEGRAM_DOCUMENT_TOO_LARGE"

def ErrorCodes.FILE_INVALID_SOURCE : String := "FILE_INVALID_SOURCE"

def ErrorCodes.FILE_DOWNLOAD_FAILED : String := "FILE_DOWNLOAD_FAILED"

/-! ## Basic JavaScript string / value helpers -/

/-- First binding of key `k` in a JS object (own-property lookup).
JSON.parse keeps at most one binding per key, so first-match lookup
is faithful for parsed payloads. -/
def getField (fields : List (String × Json)) (k : String) : Option Json :=
  match fields with
  | [] => none
  | (k', v) :: rest => if k' = k then some v else getField rest k

/-- JavaScript truthiness on our `Json` values (`!x` in the source):
`null`, `false`, `0` and the empty string are falsy. -/
def jsTruthy : Json → Bool
  | .null => false
  | .bool b => b
  | .num n => n != 0
  | .str s => s ≠ ""
  | .arr _ => true
  | .obj _ => true

/-- JavaScript `a || b` for an optional string operand (`undefined`
and the empty string fall through to the default). -/
def jsOrString (value : Option String) (dflt : String) : String :=
  match value with
  | some s => if s = "" then dflt else s
  | none => dflt

/-- Boolean list-prefix test on characters. -/
def charsPre : List Char → List Char → Bool
  | [], _ => true
  | _ :: _, [] => false
  | n :: ns, h :: hs => n == h && charsPre ns hs

/-- Boolean substring containment on character lists. -/
def charsSub (needle : List Char) : List Char → Bool
  | [] => needle.isEmpty
  | h :: hs => charsPre needle (h :: hs) || charsSub needle hs

/-- JavaScript `hay.includes(needle)` (substring containment). -/
def strIncludes (hay needle : String) : Bool :=
  charsSub needle.data hay.data

/-- JavaScript `toLowerCase`, restricted to ASCII case folding.
Every pattern the embedded code searches for is ASCII, and folding
non-ASCII letters can never produce an ASCII character, so the
restriction does not change any containment test the code performs. -/
def jsToLower (s : String) : String :=
  String.mk (s.data.map Char.toLower)

/-- JavaScript `s.startsWith(pre)`. -/
def jsStartsWith (s pre : String) : Bool :=
  charsPre pre.data s.data

/-! ## Envelope normalizer (src/http/messages.ts) -/

/-- JSON-RPC correlation id: `z.union([z.string(), z.number()])`. -/
inductive RpcId where
  | str (s : String)
  | num (n : Int)
deriving Repr, DecidableEq

/-- Output of `JsonRpcMessageSchema.safeParse`: the canonical
request envelope as validated by the schema.  `jsonrpc` is the
fixed protocol tag (always "2.0" after a successful parse) and
`method` is a genuine string, guaranteed by `z.string()`. -/
structure JsonRpcMessage where
  jsonrpc : String
  id : Option RpcId
  method : String
  params : Option Json
deriving Repr

/-- Parse an optional `id` field the way
`z.union([z.string(), z.number()]).optional()` does: absent is
fine, present must be a string or a number.  `none` means the
schema rejects the value. -/
def parseOptionalId (field : Option Json) : Option (Option RpcId) :=
  match field with
  | none => some none
  | some (.str s) => some (some (.str s))
  | some (.num n) => some (some (.num n))
  | some _ => none

/-- `JsonRpcMessageSchema.safeParse`: an object with
`jsonrpc: "2.0"`, a non-empty string `method`, an optional
string-or-number `id` and arbitrary optional `params`.  Unknown
keys are stripped (zod object default). -/
def jsonRpcSafeParse (j : Json) : Option JsonRpcMessage :=
  match j with
  | .obj fs =>
    match getField fs "jsonrpc" with
    | some (.str tag) =>
      if tag = "2.0" then
        match getField fs "method" with
        | some (.str m) =>
          if m = "" then none
          else
            match parseOptionalId (getField fs "id") with
            | some id => some ⟨"2.0", id, m, getField fs "params"⟩
            | none => none
        | _ => none
      else none
    | _ => none
  | _ => none

/-- Output of `LegacyMessageSchema`. -/
structure LegacyMessage where
  id : Option RpcId
  tool : String
  arguments : Option (List (String × Json))
deriving Repr

/-- `LegacyMessageSchema.safeParse`: an object with a non-empty
string `tool`, an optional string-or-number `id` and an optional
`arguments` record (`z.record` rejects arrays, `null` and
primitives). -/
def legacySafeParse (j : Json) : Option LegacyMessage :=
  match j with
  | .obj fs =>
    match getField fs "tool" with
    | some (.str t) =>
      if t = "" then none
      else
        match parseOptionalId (getField fs "id") with
        | some id =>
          match getField fs "arguments" with
          | none => some ⟨id, t, none⟩
          | some (.obj args) => some ⟨id, t, some args⟩
          | some _ => none
        | none => none
    | _ => none
  | _ => none

/-- `METHOD_ALIASES` from src/http/messages.ts. -/
def METHOD_ALIASES : List (String × String) :=
  [("call_tool", "tools/call"), ("list_tools", "tools/list")]

/-- Own property keys of `Object.prototype` in a standard
JavaScript runtime.  `METHOD_ALIASES` is a plain object literal,
so an index read `METHOD_ALIASES[name]` that misses the two own
entries continues along the prototype chain and, for these names,
yields the inherited member (a function, or `Object.prototype`
itself in the case of `__proto__`) — a defined, non-string
value. -/
def OBJECT_PROTOTYPE_KEYS : List String :=
  ["constructor", "hasOwnProperty", "isPrototypeOf",
   "propertyIsOwnEnumerable", "toLocaleString", "toString", "valueOf",
   "__defineGetter__", "__defineSetter__", "__lookupGetter__",
   "__lookupSetter__", "__proto__"]

/-- The JavaScript value `normalizeMethod` places in the
envelope's method slot: a string (an alias target or the caller's
own name), or a member inherited from `Object.prototype` — a
non-string function/object value, identified here by the name it
was read under. -/
inductive MethodValue where
  | str (s : String)
  | protoMember (name : String)
deriving Repr, DecidableEq

/-- `METHOD_ALIASES[method]` as a JavaScript property read: the
own entries of the alias table first, then the `Object.prototype`
chain; `none` stands for `undefined`. -/
def methodAliasRead (method : String) : Option MethodValue :=
  match METHOD_ALIASES.lookup method with
  | some target => some (.str target)
  | none =>
    if OBJECT_PROTOTYPE_KEYS.contains method then some (.protoMember method)
    else none

/-- `normalizeMethod`: `METHOD_ALIASES[method] ?? method`.  The
nullish fallback to the caller's name fires only when the property
read is `undefined`, i.e. for names that are neither alias-table
entries nor `Object.prototype` members. -/
def normalizeMethod (method : String) : MethodValue :=
  match methodAliasRead method with
  | some v => v
  | none => .str method

/-- `ensureArgumentsObject`: keep a real (non-array) object,
coerce anything else to the empty mapping. -/
def ensureArgumentsObject (value : Option Json) : List (String × Json) :=
  match value with
  | some (.obj fs) => fs
  | _ => []

/-- Input to `normalizeIncomingMessage`.  The source takes
`unknown`: a non-string value is used as the candidate directly; a
string is first run through `JSON.parse`, which either yields a
structured value or throws.  The parse outcome is part of the
modelled input, standing in for the external JSON parser. -/
inductive RawInput where
  | direct (c : Json)
  | stringGood (c : Json)
  | stringBad
deriving Repr

/-- Candidate structured value of a raw input, if JSON parsing
succeeded (or was not needed). -/
def RawInput.candidate : RawInput → Option Json
  | .direct c => some c
  | .stringGood c => some c
  | .stringBad => none

/-- Runtime shape of the envelope returned by
`normalizeIncomingMessage`.  The TypeScript signature reuses the
schema type with `method: string`, but the runtime value in the
method slot is whatever `normalizeMethod` produced — for
`Object.prototype` collisions that is not a string (the
`Record<string, string>` index type hides the inherited-member
case). -/
structure NormalizedMessage where
  jsonrpc : String
  id : Option RpcId
  method : MethodValue
  params : Option Json
deriving Repr

/-- `normalizeIncomingMessage` on an already-parsed candidate
value: canonical dialect first (with alias rewriting), then the
legacy dialect (guarded by `env.allowLegacyBody`, synthesizing the
id via `randomUUID`, modelled by the `genId` parameter), and
otherwise the malformed-payload error. -/
def normalizeParsed (allowLegacyBody : Bool) (genId : String) (c : Json) :
    Except AppErr NormalizedMessage :=
  match jsonRpcSafeParse c with
  | some parsed =>
    .ok ⟨parsed.jsonrpc, parsed.id, normalizeMethod parsed.method, parsed.params⟩
  | none =>
    match legacySafeParse c with
    | some legacy =>
      if allowLegacyBody then
        .ok ⟨"2.0", some (legacy.id.getD (.str genId)), .str "tools/call",
          some (.obj [("name", .str legacy.tool),
                      ("arguments", .obj (ensureArgumentsObject (legacy.arguments.map .obj)))])⟩
      else
        .error ⟨400, ErrorCodes.INVALID_REQUEST, "Legacy payloads are disabled"⟩
    | none =>
      .error ⟨400, ErrorCodes.INVALID_JSON, "Invalid JSON-RPC payload"⟩

/-- `normalizeIncomingMessage` from src/http/messages.ts. -/
def normalizeIncomingMessage (allowLegacyBody : Bool) (genId : String)
    (input : RawInput) : Except AppErr NormalizedMessage :=
  match input.candidate with
  | none => .error ⟨400, ErrorCodes.INVALID_JSON, "Body must be valid JSON"⟩
  | some c => normalizeParsed allowLegacyBody genId c

/-! ## Telegram service (src/services/telegram.ts) -/

/-- A JS `string | number` chat identifier. -/
inductive ChatVal where
  | str (v : String)
  | num (v : Int)
deriving Repr, DecidableEq

/-- JavaScript `String(chatId)`; decimal rendering for integral
numbers matches `Int` rendering. -/
def ChatVal.render : ChatVal → String
  | .str v => v
  | .num v => toString v

/-- `TelegramService.ensureChatAccess`: empty allow-set means
unrestricted; otherwise `String(chatId)` must be in the set.  The
`Set<string>` is modelled as a list of its elements. -/
def ensureChatAccess (allowedChatIds : List String) (chatId : ChatVal) :
    Except AppErr Unit :=
  if allowedChatIds.isEmpty then .ok ()
  else
    let normalized := chatId.render
    if allowedChatIds.contains normalized then .ok ()
    else
      .error ⟨403, ErrorCodes.TELEGRAM_CHAT_NOT_ALLOWED,
        "Chat " ++ normalized ++ " is not allowed by configuration"⟩

/-- `TelegramService.getChat`, reduced to the data the send path
consumes: it performs the provider `getChat` call (modelled by the
`lookup` oracle, which yields the chat object, represented by its
`id`, or a classified provider error), then runs
`ensureChatAccess` on `response.id` before returning. -/
def getChatModel (allowedChatIds : List String)
    (lookup : String → Except AppErr Int) (chatIdOrUsername : String) :
    Except AppErr Int :=
  match lookup chatIdOrUsername with
  | .error e => .error e
  | .ok cid =>
    match ensureChatAccess allowedChatIds (.num cid) with
    | .error e => .error e
    | .ok _ => .ok cid

/-- `TelegramService.resolveChatId`: a chat id starting with "@" is
resolved through `getChat` to the numeric chat id; anything else is
returned as the original string. -/
def resolveChatId (allowedChatIds : List String)
    (lookup : String → Except AppErr Int) (chatId : String) :
    Except AppErr ChatVal :=
  if jsStartsWith chatId "@" then
    match getChatModel allowedChatIds lookup chatId with
    | .error e => .error e
    | .ok cid => .ok (.num cid)
  else .ok (.str chatId)

/-- The access-control prefix of `TelegramService.sendMessage`
(lines 140-141): resolve the destination, then run the chat access
check on the resolved value.  The remainder of `sendMessage`
performs the HTTP send and does not touch the access decision. -/
def sendMessageAccessPhase (allowedChatIds : List String)
    (lookup : String → Except AppErr Int) (chatId : String) :
    Except AppErr ChatVal :=
  match resolveChatId allowedChatIds lookup chatId with
  | .error e => .error e
  | .ok resolved =>
    match ensureChatAccess allowedChatIds resolved with
    | .error e => .error e
    | .ok _ => .ok resolved

/-- `TelegramOperation` from src/services/telegram.ts. -/
inductive TelegramOperation where
  | sendMessage
  | sendDocument
  | getUpdates
  | getChat
deriving Repr, DecidableEq

/-- `RequestMeta` from src/services/telegram.ts. -/
structure RequestMeta where
  operation : TelegramOperation
  originalChatId : Option String := none
  resolvedChatId : Option ChatVal := none
deriving Repr, DecidableEq

/-- Fixed remediation hint returned by the classifier for the
`getChat` alias-not-found case. -/
def chatNotFoundHint : String :=
  "Bad Request: chat not found. Проверь: " ++
  "1) пользователь написал боту хотя бы 1 раз (для @username), " ++
  "2) для группы/канала — бот добавлен в участники, " ++
  "3) у бота есть право писать в чат. Альтернатива: используй числовой chat_id."

/-- Bot handle used in the blocked-by-user remediation hint:
`env.telegramBotUsername` prefixed with "@" when needed, with the
generic fallback when the config value is absent or empty. -/
def botHandle (telegramBotUsername : Option String) : String :=
  match telegramBotUsername with
  | some u =>
    if u = "" then "ботом"
    else if jsStartsWith u "@" then u
    else "@" ++ u
  | none => "ботом"

/-- `TelegramService.createTelegramError`: the ordered decision
list classifying a raw provider failure (HTTP status plus optional
provider message) into an `AppErr`.  The `details` log payload and
the raw axios error argument are not modelled. -/
def createTelegramError (telegramBotUsername : Option String) (status : Nat)
    (description : Option String) (meta : RequestMeta) : AppErr :=
  let message := jsOrString description "Telegram API request failed"
  let lowered := jsToLower message
  if meta.operation = .getChat && status = 400
      && (match meta.originalChatId with
          | some c => jsStartsWith c "@"
          | none => false)
      && strIncludes lowered "chat not found" then
    ⟨400, ErrorCodes.TELEGRAM_CHAT_NOT_FOUND, chatNotFoundHint⟩
  else if strIncludes lowered "bot was blocked by the user"
      || strIncludes lowered "can\x27t initiate conversation" then
    ⟨403, ErrorCodes.TELEGRAM_FORBIDDEN,
      message ++ ". Открой диалог с " ++ botHandle telegramBotUsername ++ " и нажми Start."⟩
  else if status = 403 then
    ⟨403, ErrorCodes.TELEGRAM_FORBIDDEN, message⟩
  else if status = 400 then
    ⟨400, ErrorCodes.TELEGRAM_BAD_REQUEST, message⟩
  else if status = 429 then
    ⟨429, ErrorCodes.TELEGRAM_API_ERROR, message ++ " (rate limited)"⟩
  else if 500 ≤ status then
    ⟨status, ErrorCodes.TELEGRAM_API_ERROR, message ++ " (telegram error)"⟩
  else
    ⟨if status = 0 then 502 else status,
      ErrorCodes.TELEGRAM_MESSAGE_NOT_DELIVERED, message⟩

/-- Body of a Telegram API response (`TelegramResponse<T>`). -/
structure TgBody where
  ok : Bool
  result : Option Json
  description : Option String
deriving Repr

/-- Outcome of one HTTP attempt, as seen by the `try` block of
`makeRequest`: either the axios promise resolves with a body, or
it rejects with an `AxiosError` carrying an optional error code,
a message, and an optional response (status and parsed body). -/
inductive HttpOutcome where
  | success (body : TgBody)
  | failure (errCode : Option String) (errMessage : String)
      (response : Option (Nat × Option TgBody))
deriving Repr

/-- What the `catch` block of `makeRequest` sees: the fields of the
caught value that it reads (`error.code`, `error.message`,
`error.response?.status`, `error.response?.data`). -/
structure CaughtErr where
  errCode : Option String
  errMessage : String
  respStatus : Option Nat
  respBody : Option TgBody
deriving Repr

/-- `TelegramService.shouldRetry`: `ECONNABORTED` retries; a
missing (or zero, hence falsy) response status retries; otherwise
only 5xx statuses retry. -/
def shouldRetry (e : CaughtErr) : Bool :=
  if e.errCode = some "ECONNABORTED" then true
  else
    match e.respStatus with
    | none => true
    | some s => if s = 0 then true else 500 ≤ s

/-- Evaluate the `try` block of `makeRequest` for one attempt:
either the typed result is returned, or a value is thrown and
caught.  On a resolved response whose body fails the
`ok`-and-truthy-`result` check, the thrown value is the
`AppError(502, TELEGRAM_API_ERROR, description || ...)` from line
339; as a caught value it exposes `code = "TELEGRAM_API_ERROR"`,
the message, and no `response` property. -/
def attemptResult (outcome : HttpOutcome) : Sum Json CaughtErr :=
  match outcome with
  | .success body =>
    match body.result with
    | some r =>
      if body.ok && jsTruthy r then .inl r
      else
        .inr ⟨some ErrorCodes.TELEGRAM_API_ERROR,
          jsOrString body.description "Unexpected response from Telegram", none, none⟩
    | none =>
      .inr ⟨some ErrorCodes.TELEGRAM_API_ERROR,
        jsOrString body.description "Unexpected response from Telegram", none, none⟩
  | .failure errCode errMessage response =>
    .inr ⟨errCode, errMessage, response.map Prod.fst,
      (response.map Prod.snd).getD none⟩

/-- Terminal classification of a caught error in `makeRequest`:
`status = error.response?.status ?? 500` and
`description = error.response?.data?.description || error.message`
feed `createTelegramError`. -/
def classifyCaught (telegramBotUsername : Option String) (meta : RequestMeta)
    (e : CaughtErr) : AppErr :=
  let status := e.respStatus.getD 500
  let description :=
    jsOrString ((e.respBody.map TgBody.description).getD none) e.errMessage
  createTelegramError telegramBotUsername status (some description) meta

/-- `TelegramService.makeRequest`, with the HTTP transport
abstracted as an oracle from attempt number to outcome.  Returns
the final result together with the number of HTTP attempts issued
and the list of backoff delays (ms) waited between attempts.  The
rate-limiter acquisition that precedes every attempt is modelled
separately (see `RateLimiter` below) and does not alter the
result, attempt count or backoff delays. -/
def makeRequestGo (telegramBotUsername : Option String)
    (transport : Nat → HttpOutcome) (meta : RequestMeta) :
    Nat → Nat → Except AppErr Json × Nat × List Nat
  | attempt, remaining =>
    match attemptResult (transport attempt) with
    | .inl r => (.ok r, 1, [])
    | .inr caught =>
      match remaining with
      | 0 => (.error (classifyCaught telegramBotUsername meta caught), 1, [])
      | rem + 1 =>
        if shouldRetry caught then
          let delayMs := 2 ^ attempt * 300
          let rest := makeRequestGo telegramBotUsername transport meta (attempt + 1) rem
          (rest.1, rest.2.1 + 1, delayMs :: rest.2.2)
        else
          (.error (classifyCaught telegramBotUsername meta caught), 1, [])

/-- `makeRequest` entry point: attempt `0`, with
`remaining = maxRetries` retries in budget (the source guard
`attempt < maxRetries` is `remaining > 0` here, since `remaining`
is maintained as `maxRetries - attempt`). -/
def makeRequest (telegramBotUsername : Option String)
    (transport : Nat → HttpOutcome) (maxRetries : Nat) (meta : RequestMeta) :
    Except AppErr Json × Nat × List Nat :=
  makeRequestGo telegramBotUsername transport meta 0 maxRetries

/-! ## getUpdates result shaping (src/services/telegram.ts lines 241-259) -/

/-- The fixed allow-list of top-level update keys. -/
def allowedUpdateKeys : List String :=
  ["update_id", "message", "edited_message", "channel_post", "edited_channel_post"]

/-- Per-element filtering in `getUpdates`: values that are not
objects in the JavaScript sense (`typeof update !== "object"`, or
`null`) pass through unchanged; JS objects are rebuilt from the
allow-listed keys they carry.  An array is a JS object with no
string keys from the allow-list, so it collapses to the empty
object. -/
def filterUpdate (u : Json) : Json :=
  match u with
  | .obj fs =>
    .obj (allowedUpdateKeys.filterMap fun k => (getField fs k).map fun v => (k, v))
  | .arr _ => .obj []
  | other => other

/-- Result shaping of `TelegramService.getUpdates`: a non-array
provider result becomes the empty list, an array is mapped through
`filterUpdate`. -/
def getUpdatesShape (response : Json) : List Json :=
  match response with
  | .arr xs => xs.map filterUpdate
  | _ => []

/-! ## Resource resolver (src/services/files.ts) -/

/-- A resolved file.  The byte buffer is modelled by its length,
which is the only aspect of the buffer the resolver inspects. -/
structure ResolvedFileShape where
  byteLength : Nat
  filename : String
  contentType : Option String
deriving Repr, DecidableEq

/-- Characters a JavaScript regex `.` does not match (line
terminators). -/
def isLineTerminator (c : Char) : Bool :=
  c = '\n' || c = '\r' || c.toNat = 0x2028 || c.toNat = 0x2029

/-- Split a character list at the first occurrence of `sep`. -/
def breakOnFirst (sep : List Char) : List Char → Option (List Char × List Char)
  | [] => none
  | h :: t =>
    if charsPre sep (h :: t) then some ([], (h :: t).drop sep.length)
    else
      match breakOnFirst sep t with
      | some (pre, post) => some (h :: pre, post)
      | none => none

/-- `DATA_URI_REGEX.exec`: `^data:(.*?);base64,(.+)$` with a lazy
mime group.  The lazy group takes the first `;base64,` separator;
`.` does not cross line terminators; the data group must be
non-empty. -/
def dataUriMatch (file : String) : Option (String × String) :=
  if jsStartsWith file "data:" then
    match breakOnFirst ";base64,".data (file.data.drop 5) with
    | some (mime, dataPart) =>
      if mime.all (fun c => !isLineTerminator c)
          && dataPart.all (fun c => !isLineTerminator c)
          && !dataPart.isEmpty then
        some (String.mk mime, String.mk dataPart)
      else none
    | none => none
  else none

/-- `stripControlCharacters` (src/services/files.ts): keep newline,
carriage return and printable characters other than DEL. -/
def stripControlCharacters (value : String) : String :=
  String.mk (value.data.filter fun c =>
    c.toNat = 10 || c.toNat = 13 || (32 ≤ c.toNat && c.toNat ≠ 127))

/-- Characters the filename sanitizer keeps (`\w`, dash, dot). -/
def isWordDashDot (c : Char) : Bool :=
  c.isAlphanum || c = '_' || c = '-' || c = '.'

/-- Collapse every maximal run of unsafe characters into a single
underscore (`.replace(/[^\w\-.]+/g, "_")`).  The flag records
whether the previous character was part of an unsafe run. -/
def collapseUnsafeGo (prevUnsafe : Bool) : List Char → List Char
  | [] => []
  | c :: rest =>
    if isWordDashDot c then c :: collapseUnsafeGo false rest
    else if prevUnsafe then collapseUnsafeGo true rest
    else '_' :: collapseUnsafeGo true rest

/-- `basename` from node:path (POSIX): drop trailing slashes, then
keep the part after the last slash. -/
def jsBasename (p : String) : String :=
  let noTrail := (p.data.reverse.dropWhile (· = '/'))
  String.mk (noTrail.takeWhile (· ≠ '/')).reverse

/-- `stripFileName` (src/services/files.ts). -/
def stripFileName (input : String) : String :=
  String.mk (collapseUnsafeGo false (jsBasename input).data)

/-- Parsed `new URL(...)` value; construction is delegated to the
host runtime, so it enters the model as an oracle result. -/
structure UrlParts where
  protocol : String
  pathname : String
  href : String
deriving Repr

/-- Outcome of the axios download in the resolver: the promise
resolves with a buffer (modelled by its byte length) and an
optional content-type header, or it rejects (timeout, network
failure, non-2xx status, or the `maxContentLength` cap aborting
the transfer). -/
inductive FetchOutcome where
  | success (byteLength : Nat) (contentType : Option String)
  | failure
deriving Repr

/-- Split a character list on a separator character, JavaScript
`split` style (an empty input gives one empty segment). -/
def splitOnCharList (sep : Char) : List Char → List (List Char)
  | [] => [[]]
  | c :: rest =>
    match splitOnCharList sep rest with
    | [] => [[]]
    | seg :: segs => if c = sep then [] :: seg :: segs else (c :: seg) :: segs

/-- `url.pathname.split("/").pop()` as an optional string. -/
def lastPathSegment (pathname : String) : Option String :=
  ((splitOnCharList '/' pathname.data).map String.mk).getLast?

/-- JavaScript `a || b || c` chain over optional strings used for
the remote-branch filename default. -/
def remoteFilenameBase (filename : String) (pathname : String) : String :=
  if filename ≠ "" then filename
  else jsOrString (lastPathSegment pathname) "document"

/-- `resolveFileInput` (src/services/files.ts).  Base64 decoding
(`Buffer.from(data, "base64")`, total in Node) and URL parsing are
oracles; the download is the `fetch` oracle.  In the remote branch
the whole body, including the post-download size check that throws
`AppError(413, TELEGRAM_DOCUMENT_TOO_LARGE)`, sits inside the
`try` whose `catch` rethrows every failure as
`AppError(502, FILE_DOWNLOAD_FAILED)`; the embedding therefore
yields the download-failed error for the over-cap case, exactly as
the source does. -/
def resolveFileInput (decodeBase64 : String → Nat)
    (parseUrl : String → Option UrlParts) (fetch : String → FetchOutcome)
    (file filename : String) (maxBytes : Nat) : Except AppErr ResolvedFileShape :=
  if jsStartsWith file "data:" then
    match dataUriMatch file with
    | none =>
      .error ⟨400, ErrorCodes.FILE_INVALID_SOURCE,
        "Invalid data URI provided for file upload"⟩
    | some (mime, dataPart) =>
      let len := decodeBase64 dataPart
      if maxBytes < len then
        .error ⟨413, ErrorCodes.TELEGRAM_DOCUMENT_TOO_LARGE,
          "File exceeds allowed size limit"⟩
      else
        .ok ⟨len,
          stripControlCharacters (stripFileName (if filename = "" then "document" else filename)),
          some (if mime = "" then "application/octet-stream" else mime)⟩
  else
    match parseUrl file with
    | none =>
      .error ⟨400, ErrorCodes.FILE_INVALID_SOURCE,
        "File must be a valid http(s) URL or base64 data URI"⟩
    | some url =>
      if url.protocol ≠ "http:" && url.protocol ≠ "https:" then
        .error ⟨400, ErrorCodes.FILE_INVALID_SOURCE,
          "Only http(s) URLs are supported for document uploads"⟩
      else
        match fetch url.href with
        | .failure =>
          .error ⟨502, ErrorCodes.FILE_DOWNLOAD_FAILED,
            "Failed to download document from provided URL"⟩
        | .success len contentType =>
          if maxBytes < len then
            .error ⟨502, ErrorCodes.FILE_DOWNLOAD_FAILED,
              "Failed to download document from provided URL"⟩
          else
            .ok ⟨len,
              stripControlCharacters (stripFileName (remoteFilenameBase filename url.pathname)),
              contentType⟩

/-! ## Token-bucket rate limiter (src/utils/rateLimit.ts) -/

/-- State of `RateLimiter`, extended with a ghost `completed` log
recording, in order, which acquisitions have resolved.  Tokens are
modelled as `Int` (a JavaScript number), so that non-negativity is
a theorem rather than a typing artefact. -/
structure LimiterState where
  tokens : Int
  queue : List Nat
  completed : List Nat
deriving Repr, DecidableEq

/-- The `processQueue` while-loop: as long as a token remains and
the queue is non-empty, consume a token and resolve the waiter at
the head of the queue.  Returns the remaining tokens, the
remaining queue, and the list of released waiters in release
order. -/
def processQueue (tokens : Int) : List Nat → Int × List Nat × List Nat
  | [] => (tokens, [], [])
  | w :: ws =>
    if 0 < tokens then
      let r := processQueue (tokens - 1) ws
      (r.1, r.2.1, w :: r.2.2)
    else (tokens, w :: ws, [])

/-- One event against the limiter: an acquisition by waiter `w`,
or a refill tick. -/
inductive LimiterEvent where
  | acquire (w : Nat)
  | refill
deriving Repr, DecidableEq

/-- `RateLimiter.acquire`: with a token in hand the caller
completes immediately; otherwise it is appended to the back of the
wait queue. -/
def acquireStep (w : Nat) (s : LimiterState) : LimiterState :=
  if 0 < s.tokens then ⟨s.tokens - 1, s.queue, s.completed ++ [w]⟩
  else ⟨s.tokens, s.queue ++ [w], s.completed⟩

/-- `RateLimiter.refill`: reset tokens to the configured limit and
drain the queue. -/
def refillStep (limit : Int) (s : LimiterState) : LimiterState :=
  let r := processQueue limit s.queue
  ⟨r.1, r.2.1, s.completed ++ r.2.2⟩

/-- Step function of the limiter. -/
def limiterStep (limit : Int) (s : LimiterState) : LimiterEvent → LimiterState
  | .acquire w => acquireStep w s
  | .refill => refillStep limit s

/-- Run a sequence of events from a given state. -/
def runLimiterFrom (limit : Int) (s : LimiterState) (events : List LimiterEvent) :
    LimiterState :=
  events.foldl (limiterStep limit) s

/-- Initial state of `new RateLimiter(limit, _)`: a full bucket,
no waiters. -/
def limiterInit (limit : Int) : LimiterState :=
  ⟨limit, [], []⟩

/-- Run a sequence of events from the freshly constructed
limiter. -/
def runLimiter (limit : Int) (events : List LimiterEvent) : LimiterState :=
  runLimiterFrom limit (limiterInit limit) events

/-- Invariant of the limiter: the token count is never negative,
and a non-empty wait queue implies an exhausted bucket (which is
what makes a fresh arrival unable to overtake queued waiters). -/
def LimiterInv (s : LimiterState) : Prop :=
  0 ≤ s.tokens ∧ (s.queue ≠ [] → s.tokens = 0)

/-- The two message-pattern rules that sit above the pure
status-based rules in `createTelegramError`: the getChat
alias-not-found rule and the blocked-by-user rules. -/
def matchesPriorityPattern (status : Nat) (description : Option String)
    (meta : RequestMeta) : Bool :=
  let message := jsOrString description "Telegram API request failed"
  let lowered := jsToLower message
  (meta.operation = .getChat && status = 400
    && (match meta.originalChatId with
        | some c => jsStartsWith c "@"
        | none => false)
    && strIncludes lowered "chat not found")
  || strIncludes lowered "bot was blocked by the user"
  || strIncludes lowered "can\x27t initiate conversation"

/-- The classifier codes actually reachable in
`createTelegramError`. -/
def classifierCodes : List String :=
  [ErrorCodes.TELEGRAM_CHAT_NOT_FOUND, ErrorCodes.TELEGRAM_FORBIDDEN,
   ErrorCodes.TELEGRAM_BAD_REQUEST, ErrorCodes.TELEGRAM_API_ERROR,
   ErrorCodes.TELEGRAM_MESSAGE_NOT_DELIVERED]

/-! ## Theorems -/

/-- C5: every input that reaches the legacy branch (it fails the
canonical-dialect parse and matches the legacy dialect) is, with
legacy support enabled, normalized into a canonical envelope whose
id is present (the given id, or the generated one when absent),
whose method is tools/call, and whose params are the object
`name`/`arguments` with the arguments record coerced to the empty
mapping when it is not an object (in particular when absent); with
legacy support disabled, normalization of every such input fails
with the legacy-disabled error (400 INVALID_REQUEST).  The final
conjunct shows that a flat legacy object — one without a
`jsonrpc` key — can never match the canonical dialect, so such
inputs always reach the legacy branch. -/
theorem c5_legacy_normalization (genId : String) (c : Json) (leg : LegacyMessage)
    (hcanon : jsonRpcSafeParse c = none) (hleg : legacySafeParse c = some leg) :
    normalizeIncomingMessage true genId (.direct c) =
      .ok ⟨"2.0", some (leg.id.getD (.str genId)), .str "tools/call",
        some (.obj [("name", .str leg.tool),
          ("arguments", .obj (ensureArgumentsObject (leg.arguments.map .obj)))])⟩ ∧
    (leg.arguments = none →
      normalizeIncomingMessage true genId (.direct c) =
        .ok ⟨"2.0", some (leg.id.getD (.str genId)), .str "tools/call",
          some (.obj [("name", .str leg.tool), ("arguments", .obj [])])⟩) ∧
    normalizeIncomingMessage false genId (.direct c) =
      .error ⟨400, ErrorCodes.INVALID_REQUEST, "Legacy payloads are disabled"⟩ ∧
    (∀ fs : List (String × Json), getField fs "jsonrpc" = none →
      jsonRpcSafeParse (.obj fs) = none) := by
  refine ⟨?_, ?_, ?_, ?_⟩
  · simp [normalizeIncomingMessage, RawInput.candidate, normalizeParsed, hcanon, hleg]
  · intro hargs
    simp [normalizeIncomingMessage, RawInput.candidate, normalizeParsed, hcanon, hleg,
      hargs, ensureArgumentsObject]
  · simp [normalizeIncomingMessage, RawInput.candidate, normalizeParsed, hcanon, hleg]
  · intro fs hfs
    simp [jsonRpcSafeParse, hfs]

/-- Witness for C5 at a concrete legacy payload without id or
arguments. -/
theorem c5_witness :
    normalizeIncomingMessage true "gen-uuid" (.direct (.obj
      [("tool", .str "telegram.send_message")])) =
      .ok ⟨"2.0", some (.str "gen-uuid"), .str "tools/call",
        some (.obj [("name", .str "telegram.send_message"),
          ("arguments", .obj [])])⟩ := by
  have h := c5_legacy_normalization "gen-uuid"
    (.obj [("tool", .str "telegram.send_message")])
    ⟨none, "telegram.send_message", none⟩ rfl rfl
  simpa using h.1

/-- C7: envelope normalization is total with a deterministic error
taxonomy.  A raw string that fails to parse as JSON yields the
malformed-payload error (400 INVALID_JSON); a candidate matching
the canonical dialect succeeds; a candidate matching only the
legacy dialect succeeds when legacy support is enabled and fails
with the legacy-disabled error (400 INVALID_REQUEST) otherwise; a
candidate matching neither dialect yields the malformed-payload
error; and no input produces any outcome beyond these four. -/
theorem c7_normalization_total (allowLegacyBody : Bool) (genId : String)
    (input : RawInput) :
    (input.candidate = none →
      normalizeIncomingMessage allowLegacyBody genId input =
        .error ⟨400, ErrorCodes.INVALID_JSON, "Body must be valid JSON"⟩) ∧
    (∀ c, input.candidate = some c →
      (∀ m, jsonRpcSafeParse c = some m →
        normalizeIncomingMessage allowLegacyBody genId input =
          .ok ⟨m.jsonrpc, m.id, normalizeMethod m.method, m.params⟩) ∧
      (jsonRpcSafeParse c = none → ∀ leg, legacySafeParse c = some leg →
        (allowLegacyBody = true →
          ∃ m, normalizeIncomingMessage allowLegacyBody genId input = .ok m) ∧
        (allowLegacyBody = false →
          normalizeIncomingMessage allowLegacyBody genId input =
            .error ⟨400, ErrorCodes.INVALID_REQUEST, "Legacy payloads are disabled"⟩)) ∧
      (jsonRpcSafeParse c = none → legacySafeParse c = none →
        normalizeIncomingMessage allowLegacyBody genId input =
          .error ⟨400, ErrorCodes.INVALID_JSON, "Invalid JSON-RPC payload"⟩)) ∧
    ((∃ m, normalizeIncomingMessage allowLegacyBody genId input = .ok m) ∨
      normalizeIncomingMessage allowLegacyBody genId input =
        .error ⟨400, ErrorCodes.INVALID_JSON, "Body must be valid JSON"⟩ ∨
      normalizeIncomingMessage allowLegacyBody genId input =
        .error ⟨400, ErrorCodes.INVALID_JSON, "Invalid JSON-RPC payload"⟩ ∨
      normalizeIncomingMessage allowLegacyBody genId input =
        .error ⟨400, ErrorCodes.INVALID_REQUEST, "Legacy payloads are disabled"⟩) := by
  refine ⟨?_, ?_, ?_⟩
  · intro hc
    simp [normalizeIncomingMessage, hc]
  · intro c hc
    refine ⟨?_, ?_, ?_⟩
    · intro m hm
      obtain ⟨tag, mid, mmethod, mparams⟩ := m
      simp [normalizeIncomingMessage, hc, normalizeParsed, hm]
    · intro hm leg hleg
      constructor
      · intro hflag
        subst hflag
        refine ⟨⟨"2.0", some (leg.id.getD (.str genId)), .str "tools/call",
          some (.obj [("name", .str leg.tool),
            ("arguments", .obj (ensureArgumentsObject (leg.arguments.map .obj)))])⟩, ?_⟩
        simp [normalizeIncomingMessage, hc, normalizeParsed, hm, hleg]
      · intro hflag
        subst hflag
        simp [normalizeIncomingMessage, hc, normalizeParsed, hm, hleg]
    · intro hm hleg
      simp [normalizeIncomingMessage, hc, normalizeParsed, hm, hleg]
  · rcases hcand : input.candidate with _ | c
    · right; left
      simp [normalizeIncomingMessage, hcand]
    · rcases hm : jsonRpcSafeParse c with _ | m
      · rcases hleg : legacySafeParse c with _ | leg
        · right; right; left
          simp [normalizeIncomingMessage, hcand, normalizeParsed, hm, hleg]
        · cases allowLegacyBody
          · right; right; right
            simp [normalizeIncomingMessage, hcand, normalizeParsed, hm, hleg]
          · left
            refine ⟨⟨"2.0", some (leg.id.getD (.str genId)), .str "tools/call",
              some (.obj [("name", .str leg.tool),
                ("arguments", .obj (ensureArgumentsObject (leg.arguments.map .obj)))])⟩, ?_⟩
            simp [normalizeIncomingMessage, hcand, normalizeParsed, hm, hleg]
      · left
        refine ⟨⟨m.jsonrpc, m.id, normalizeMethod m.method, m.params⟩, ?_⟩
        simp [normalizeIncomingMessage, hcand, normalizeParsed, hm]

/-- Witness for C7 at a structured candidate matching neither
dialect. -/
theorem c7_witness :
    normalizeIncomingMessage true "gen" (.direct (.obj [("x", .num 1)])) =
      .error ⟨400, ErrorCodes.INVALID_JSON, "Invalid JSON-RPC payload"⟩ := by
  have h := (c7_normalization_total true "gen" (.direct (.obj [("x", .num 1)]))).2.1
    (.obj [("x", .num 1)]) rfl
  exact h.2.2 rfl rfl

/-- Every output of the classifier carries one of its five
reachable error codes. -/
theorem createTelegramError_code_total (bu : Option String) (status : Nat)
    (d : Option String) (meta : RequestMeta) :
    (createTelegramError bu status d meta).code ∈ classifierCodes := by
  simp only [createTelegramError]
  split_ifs <;> simp [classifierCodes]

/-- C3 counterexample: the claim "a 429 status yields the
rate-limited kind" fails as a universal statement over message
texts, because the blocked-by-user message rule precedes the
status rules: at status 429 with the provider message "Forbidden:
bot was blocked by the user" the classifier returns the forbidden
kind (status 403, TELEGRAM_FORBIDDEN), not the rate-limited one. -/
theorem c3_counterexample :
    createTelegramError none 429 (some "Forbidden: bot was blocked by the user")
        ⟨.sendMessage, none, none⟩ =
      ⟨403, ErrorCodes.TELEGRAM_FORBIDDEN,
        "Forbidden: bot was blocked by the user. Открой диалог с ботом и нажми Start."⟩ ∧
    (createTelegramError none 429 (some "Forbidden: bot was blocked by the user")
        ⟨.sendMessage, none, none⟩).statusCode ≠ 429 := by
  constructor
  · rfl
  · decide

/-- C3 (amended): the error classifier is a pure total function —
every status/message combination yields exactly one of the
reachable error kinds — and, whenever the message matches neither
of the two higher-priority message-pattern rules, a 429 status
yields the rate-limited rendering (status 429, code
TELEGRAM_API_ERROR, message suffixed " (rate limited)"), a 5xx
status yields the provider-internal rendering (the 5xx status,
code TELEGRAM_API_ERROR, message suffixed " (telegram error)"),
and the two renderings are distinguishable (no rate-limited output
ever equals a provider-internal output, their status codes
differing). -/
theorem c3_error_classifier (bu : Option String) (status : Nat)
    (d : Option String) (meta : RequestMeta)
    (hp : matchesPriorityPattern status d meta = false) :
    (∀ bu2 status2 d2 meta2,
      (createTelegramError bu2 status2 d2 meta2).code ∈ classifierCodes) ∧
    (status = 429 → createTelegramError bu status d meta =
      ⟨429, ErrorCodes.TELEGRAM_API_ERROR,
        jsOrString d "Telegram API request failed" ++ " (rate limited)"⟩) ∧
    (500 ≤ status → createTelegramError bu status d meta =
      ⟨status, ErrorCodes.TELEGRAM_API_ERROR,
        jsOrString d "Telegram API request failed" ++ " (telegram error)"⟩) ∧
    (status = 429 → ∀ bu2 status2 d2 meta2,
      matchesPriorityPattern status2 d2 meta2 = false → 500 ≤ status2 →
      createTelegramError bu status d meta ≠ createTelegramError bu2 status2 d2 meta2) := by
  have key : ∀ (bu3 : Option String) (status3 : Nat) (d3 : Option String)
      (meta3 : RequestMeta), matchesPriorityPattern status3 d3 meta3 = false →
      (status3 = 429 → createTelegramError bu3 status3 d3 meta3 =
        ⟨429, ErrorCodes.TELEGRAM_API_ERROR,
          jsOrString d3 "Telegram API request failed" ++ " (rate limited)"⟩) ∧
      (500 ≤ status3 → createTelegramError bu3 status3 d3 meta3 =
        ⟨status3, ErrorCodes.TELEGRAM_API_ERROR,
          jsOrString d3 "Telegram API request failed" ++ " (telegram error)"⟩) := by
    intro bu3 status3 d3 meta3 hp3
    simp only [matchesPriorityPattern, Bool.or_eq_false_iff, Bool.and_eq_false_iff] at hp3
    constructor
    · intro h429
      subst h429
      unfold createTelegramError
      simp only [matchesPriorityPattern] at hp3 ⊢
      simp_all [createTelegramError]
    · intro h5xx
      unfold createTelegramError
      have h403 : status3 ≠ 403 := by omega
      have h400 : status3 ≠ 400 := by omega
      have h429 : status3 ≠ 429 := by omega
      simp_all [createTelegramError]
  refine ⟨fun bu2 status2 d2 meta2 => createTelegramError_code_total bu2 status2 d2 meta2,
    (key bu status d meta hp).1, (key bu status d meta hp).2, ?_⟩
  intro h429 bu2 status2 d2 meta2 hp2 h5xx
  rw [(key bu status d meta hp).1 h429, (key bu2 status2 d2 meta2 hp2).2 h5xx]
  intro hcontra
  have := congrArg AppErr.statusCode hcontra
  simp at this
  omega

/-- Witness for C3 at a concrete rate-limited failure. -/
theorem c3_witness :
    createTelegramError none 429 (some "Too Many Requests: retry after 14")
        ⟨.getUpdates, none, none⟩ =
      ⟨429, ErrorCodes.TELEGRAM_API_ERROR,
        "Too Many Requests: retry after 14 (rate limited)"⟩ := by
  have h := (c3_error_classifier none 429 (some "Too Many Requests: retry after 14")
    ⟨.getUpdates, none, none⟩ (by decide)).2.1 rfl
  simpa [jsOrString] using h

/-- C2 (code bug): when the transport succeeds but the body
reports failure, `makeRequest` throws the classified
`AppError(502, TELEGRAM_API_ERROR)` inside its own `try`, and the
surrounding `catch` treats that exception like a transport error
with no response status — `shouldRetry` then returns true, so the
call IS retried.  At the default `maxRetries = 2` with every
attempt returning HTTP 200 and body `{ok: false, description:
"kaput"}`, the client issues three attempts with 300ms and 600ms
backoffs and finally raises a reclassified error built from the
default status 500, contradicting the claim that such a failure is
terminal after a single attempt. -/
theorem c2_provider_rejected_is_retried :
    makeRequest none (fun _ => .success ⟨false, none, some "kaput"⟩) 2
        ⟨.sendMessage, none, none⟩ =
      (.error ⟨500, ErrorCodes.TELEGRAM_API_ERROR, "kaput (telegram error)"⟩,
        3, [300, 600]) := by
  rfl

/-- C9: under the retry policy, a call whose transport fails with
a 500 status on the first two attempts and succeeds on the third
returns the success result with exactly three attempts and
strictly increasing backoff delays of 300ms then 600ms; a call
failing with a 400 status is never retried — it is classified
(here to 400 TELEGRAM_BAD_REQUEST) and raised after the single
attempt.  `mr` is any configured retry budget of at least 2 (the
repository configuration uses exactly 2). -/
theorem c9_retry_policy (mr : Nat) (hmr : 2 ≤ mr) (bu : Option String)
    (meta : RequestMeta) (tr trBad : Nat → HttpOutcome)
    (m0 m1 : String) (b0 b1 : Option TgBody) (r : Json) (d : Option TgBody)
    (h0 : tr 0 = .failure none m0 (some (500, b0)))
    (h1 : tr 1 = .failure none m1 (some (500, b1)))
    (h2 : tr 2 = .success ⟨true, some r, (d.map TgBody.description).getD none⟩)
    (hr : jsTruthy r = true)
    (desc m4 : String) (c4 : Option String)
    (hb : trBad 0 = .failure c4 m4 (some (400, some ⟨false, none, some desc⟩)))
    (hc4 : c4 ≠ some "ECONNABORTED")
    (hdesc : desc ≠ "")
    (hop : meta.operation ≠ TelegramOperation.getChat)
    (hp1 : strIncludes (jsToLower desc) "bot was blocked by the user" = false)
    (hp2 : strIncludes (jsToLower desc) "can\x27t initiate conversation" = false) :
    makeRequest bu tr mr meta = (.ok r, 3, [300, 600]) ∧
    List.Chain' (· < ·) (makeRequest bu tr mr meta).2.2 ∧
    makeRequest bu trBad mr meta =
      (.error ⟨400, ErrorCodes.TELEGRAM_BAD_REQUEST, desc⟩, 1, []) := by
  obtain ⟨k, rfl⟩ : ∃ k, mr = k + 2 := ⟨mr - 2, by omega⟩
  have hgood : makeRequest bu tr (k + 2) meta = (.ok r, 3, [300, 600]) := by
    simp [makeRequest, makeRequestGo, h0, h1, h2, attemptResult, shouldRetry, hr]
  refine ⟨hgood, by rw [hgood]; norm_num [List.chain'_cons], ?_⟩
  have hclass : classifyCaught bu meta
      ⟨c4, m4, some 400, some ⟨false, none, some desc⟩⟩ =
      ⟨400, ErrorCodes.TELEGRAM_BAD_REQUEST, desc⟩ := by
    simp only [classifyCaught, createTelegramError, jsOrString]
    simp [hdesc, hp1, hp2, hop]
  simp [makeRequest, makeRequestGo, hb, attemptResult, shouldRetry, hc4, hclass]

/-- Witness for C9 at the repository retry budget and a concrete
pair of transports. -/
theorem c9_witness :
    makeRequest none
        (fun n => if n < 2 then .failure none "err500" (some (500, none))
          else .success ⟨true, some (.num 1), none⟩) 2
        ⟨.sendMessage, none, none⟩ = (.ok (.num 1), 3, [300, 600]) ∧
    makeRequest none
        (fun _ => .failure none "err400"
          (some (400, some ⟨false, none, some "Bad Request: message text is empty"⟩))) 2
        ⟨.sendMessage, none, none⟩ =
      (.error ⟨400, ErrorCodes.TELEGRAM_BAD_REQUEST,
        "Bad Request: message text is empty"⟩, 1, []) := by
  have h := c9_retry_policy 2 (by decide) none ⟨.sendMessage, none, none⟩
    (fun n => if n < 2 then .failure none "err500" (some (500, none))
      else .success ⟨true, some (.num 1), none⟩)
    (fun _ => .failure none "err400"
      (some (400, some ⟨false, none, some "Bad Request: message text is empty"⟩)))
    "err500" "err500" none none (.num 1) none rfl rfl rfl rfl
    "Bad Request: message text is empty" "err400" none rfl (by decide) (by decide)
    (by decide) (by decide) (by decide)
  exact ⟨h.1, h.2.2⟩

/-- C4 (code bug): on the remote-URL path of the resource
resolver, a fetched resource whose size exceeds the byte ceiling
is reported as the download-failed error, not as the too-large
error: the `AppError(413, TELEGRAM_DOCUMENT_TOO_LARGE)` thrown by
the post-download size check sits inside the same `try` whose
`catch` rethrows every failure as
`AppError(502, FILE_DOWNLOAD_FAILED)`.  Here the ceiling is 10
bytes and the fetched body is 11 bytes. -/
theorem c4_remote_overcap_is_download_failed :
    resolveFileInput (fun _ => 0)
        (fun _ => some ⟨"https:", "/big.bin", "https://example.com/big.bin"⟩)
        (fun _ => .success 11 (some "application/pdf"))
        "https://example.com/big.bin" "report.pdf" 10 =
      .error ⟨502, ErrorCodes.FILE_DOWNLOAD_FAILED,
        "Failed to download document from provided URL"⟩ ∧
    ErrorCodes.FILE_DOWNLOAD_FAILED ≠ ErrorCodes.TELEGRAM_DOCUMENT_TOO_LARGE := by
  exact ⟨rfl, by decide⟩

/-- C10: the get-updates result shaping returns the empty list
whenever the provider result is not an array; on an array it maps
each element through the key filter, under which every JS object
is rebuilt from allow-listed keys only (each surviving binding has
a key from the allow-list and the value the provider sent), an
array element collapses to the empty object, and every
non-object element (null, boolean, number, string) passes through
unchanged. -/
theorem c10_get_updates_shape (response : Json) :
    (∀ xs, response = .arr xs → getUpdatesShape response = xs.map filterUpdate) ∧
    ((∀ xs, response ≠ .arr xs) → getUpdatesShape response = []) ∧
    (∀ fs, ∃ gs, filterUpdate (.obj fs) = .obj gs ∧
      ∀ p ∈ gs, p.1 ∈ allowedUpdateKeys ∧ getField fs p.1 = some p.2) ∧
    (∀ l, filterUpdate (.arr l) = .obj []) ∧
    filterUpdate .null = .null ∧
    (∀ b, filterUpdate (.bool b) = .bool b) ∧
    (∀ n, filterUpdate (.num n) = .num n) ∧
    (∀ t, filterUpdate (.str t) = .str t) := by
  refine ⟨?_, ?_, ?_, fun l => rfl, rfl, fun b => rfl, fun n => rfl, fun t => rfl⟩
  · rintro xs rfl
    rfl
  · intro h
    cases response with
    | arr xs => exact absurd rfl (h xs)
    | null => rfl
    | bool b => rfl
    | num n => rfl
    | str t => rfl
    | obj fs => rfl
  · intro fs
    refine ⟨_, rfl, ?_⟩
    intro p hp
    rw [List.mem_filterMap] at hp
    obtain ⟨k, hk, hmap⟩ := hp
    cases hv : getField fs k with
    | none => rw [hv] at hmap; simp at hmap
    | some v =>
      rw [hv] at hmap
      simp only [Option.map_some'] at hmap
      cases hmap
      exact ⟨hk, hv⟩

/-- Witness for C10 at a concrete provider result mixing an
over-keyed object, a primitive, null and a nested array. -/
theorem c10_witness :
    getUpdatesShape (.arr [.obj [("update_id", .num 1), ("secret", .str "x")],
        .num 3, .null, .arr [.num 1]]) =
      [.obj [("update_id", .num 1)], .num 3, .null, .obj []] := by
  have h := (c10_get_updates_shape (.arr [.obj [("update_id", .num 1), ("secret", .str "x")],
    .num 3, .null, .arr [.num 1]])).1
    [.obj [("update_id", .num 1), ("secret", .str "x")], .num 3, .null, .arr [.num 1]] rfl
  rw [h]
  rfl

/-- The provider-error classifier can never produce the
access-policy rejection code. -/
theorem createTelegramError_never_not_allowed (bu : Option String) (status : Nat)
    (d : Option String) (meta : RequestMeta) :
    (createTelegramError bu status d meta).code ≠ ErrorCodes.TELEGRAM_CHAT_NOT_ALLOWED := by
  intro h
  have hmem := createTelegramError_code_total bu status d meta
  rw [h] at hmem
  revert hmem
  decide

/-- C1: the chat access policy on the send path.  With an empty
allow-set the access check always passes, so the send path can
only fail with errors coming from the provider lookup (never with
the destination-not-allowed code, given that the lookup oracle,
like the real provider classifier, never produces it).  With a
non-empty allow-set, a direct destination whose identifier is not
in the set is rejected with 403 TELEGRAM_CHAT_NOT_ALLOWED.  A
destination given as an "@" alias is first resolved through the
chat lookup, and the access check is applied to the rendered
resolved identifier — the outcome depends only on whether the
resolved id is allowed, never on the raw alias string. -/
theorem c1_chat_access_policy (allowed : List String)
    (lookup : String → Except AppErr Int)
    (hlk : ∀ a e, lookup a = .error e →
      e.code ≠ ErrorCodes.TELEGRAM_CHAT_NOT_ALLOWED) :
    ((∀ c, ensureChatAccess [] c = .ok ()) ∧
      (∀ cid e, sendMessageAccessPhase [] lookup cid = .error e →
        e.code ≠ ErrorCodes.TELEGRAM_CHAT_NOT_ALLOWED)) ∧
    (∀ cid, allowed ≠ [] → jsStartsWith cid "@" = false →
      allowed.contains cid = false →
      sendMessageAccessPhase allowed lookup cid =
        .error ⟨403, ErrorCodes.TELEGRAM_CHAT_NOT_ALLOWED,
          "Chat " ++ cid ++ " is not allowed by configuration"⟩) ∧
    (∀ handle cid, jsStartsWith handle "@" = true → lookup handle = .ok cid →
      sendMessageAccessPhase allowed lookup handle =
        (if allowed.isEmpty || allowed.contains (toString cid) then .ok (.num cid)
         else .error ⟨403, ErrorCodes.TELEGRAM_CHAT_NOT_ALLOWED,
           "Chat " ++ toString cid ++ " is not allowed by configuration"⟩)) := by
  refine ⟨⟨?_, ?_⟩, ?_, ?_⟩
  · intro c
    simp [ensureChatAccess]
  · intro cid e he
    unfold sendMessageAccessPhase resolveChatId getChatModel at he
    cases hsw : jsStartsWith cid "@" with
    | false =>
      rw [hsw] at he
      simp [ensureChatAccess] at he
    | true =>
      rw [hsw] at he
      cases hl : lookup cid with
      | error e2 =>
        rw [hl] at he
        simp [ensureChatAccess] at he
        exact he ▸ hlk cid e2 hl
      | ok i =>
        rw [hl] at he
        simp [ensureChatAccess] at he
  · intro cid hne hsw hcont
    have hemp : allowed.isEmpty = false := by
      cases allowed with
      | nil => exact absurd rfl hne
      | cons a l => rfl
    have hmem : cid ∉ allowed := by simpa using hcont
    simp [sendMessageAccessPhase, resolveChatId, ensureChatAccess, ChatVal.render,
      hsw, hemp, hmem]
  · intro handle cid hsw hl
    cases hemp : allowed.isEmpty with
    | true =>
      simp [sendMessageAccessPhase, resolveChatId, getChatModel, ensureChatAccess,
        ChatVal.render, hsw, hl, hemp]
    | false =>
      cases hcont : allowed.contains (toString cid) with
      | true =>
        have hmem : toString cid ∈ allowed := by simpa using hcont
        simp [sendMessageAccessPhase, resolveChatId, getChatModel, ensureChatAccess,
          ChatVal.render, hsw, hl, hemp, hcont, hmem]
      | false =>
        have hmem : toString cid ∉ allowed := by simpa using hcont
        simp [sendMessageAccessPhase, resolveChatId, getChatModel, ensureChatAccess,
          ChatVal.render, hsw, hl, hemp, hcont, hmem]

/-- Witness for C1: an alias resolving to an id outside the
allow-set is rejected on the resolved id. -/
theorem c1_witness :
    sendMessageAccessPhase ["1"] (fun _ => .ok 42) "@chan" =
      .error ⟨403, ErrorCodes.TELEGRAM_CHAT_NOT_ALLOWED,
        "Chat 42 is not allowed by configuration"⟩ := by
  have h := (c1_chat_access_policy ["1"] (fun _ => .ok 42)
    (fun a e he => Except.noConfusion he)).2.2 "@chan" 42 rfl rfl
  rw [h]
  rfl

/-- Closed form of the `processQueue` loop for a non-negative
token count: it releases the longest prefix of the queue the
tokens can cover, in queue order. -/
theorem processQueue_eq (t : Int) (ht : 0 ≤ t) (q : List Nat) :
    processQueue t q = (t - min t q.length, q.drop t.toNat, q.take t.toNat) := by
  induction q generalizing t with
  | nil =>
    simp only [processQueue, List.length_nil, Nat.cast_zero, List.drop_nil,
      List.take_nil, Prod.mk.injEq, and_true]
    omega
  | cons w ws ih =>
    simp only [processQueue]
    by_cases h : 0 < t
    · rw [if_pos h, ih (t - 1) (by omega)]
      have h1 : t.toNat = (t - 1).toNat + 1 := by omega
      rw [h1]
      simp only [List.drop_succ_cons, List.take_succ_cons, List.length_cons,
        Prod.mk.injEq, and_true, true_and]
      push_cast
      omega
    · rw [if_neg h]
      have ht0 : t = 0 := by omega
      subst ht0
      simp only [Int.toNat_zero, List.drop_zero, List.take_zero, List.length_cons,
        Prod.mk.injEq, and_true, true_and]
      push_cast
      omega

/-- Every limiter step preserves the limiter invariant. -/
theorem limiterStep_preserves_inv (limit : Int) (hl : 0 ≤ limit)
    (s : LimiterState) (h : LimiterInv s) (e : LimiterEvent) :
    LimiterInv (limiterStep limit s e) := by
  obtain ⟨h1, h2⟩ := h
  cases e with
  | acquire w =>
    simp only [limiterStep, acquireStep]
    by_cases hp : 0 < s.tokens
    · rw [if_pos hp]
      refine ⟨show (0:Int) ≤ s.tokens - 1 by omega, ?_⟩
      intro hq
      exact absurd (h2 hq) (by omega)
    · rw [if_neg hp]
      exact ⟨h1, fun _ => show s.tokens = 0 by omega⟩
  | refill =>
    simp only [limiterStep, refillStep, processQueue_eq limit hl]
    refine ⟨show (0:Int) ≤ limit - min limit s.queue.length by omega, ?_⟩
    intro hq
    have hq2 : s.queue.drop limit.toNat ≠ [] := hq
    have hlen : limit.toNat < s.queue.length := by
      by_contra hle
      push_neg at hle
      exact hq2 (List.drop_eq_nil_of_le hle)
    show limit - min limit s.queue.length = 0
    omega

/-- The limiter invariant holds in every reachable state. -/
theorem runLimiterFrom_inv (limit : Int) (hl : 0 ≤ limit) (s : LimiterState)
    (h : LimiterInv s) (events : List LimiterEvent) :
    LimiterInv (runLimiterFrom limit s events) := by
  induction events generalizing s with
  | nil => exact h
  | cons e es ih =>
    simp only [runLimiterFrom, List.foldl_cons]
    exact ih _ (limiterStep_preserves_inv limit hl s h e)

/-- With an exhausted bucket, a burst of acquisitions only ever
appends to the back of the queue. -/
theorem runAcquires_zero (limit : Int) (q done ws : List Nat) :
    runLimiterFrom limit ⟨0, q, done⟩ (ws.map .acquire) = ⟨0, q ++ ws, done⟩ := by
  induction ws generalizing q with
  | nil => simp [runLimiterFrom]
  | cons w ws ih =>
    simp only [List.map_cons, runLimiterFrom, List.foldl_cons, limiterStep, acquireStep]
    rw [if_neg (by omega)]
    have hrec := ih (q ++ [w])
    simp only [runLimiterFrom] at hrec
    rw [hrec]
    simp

/-- A burst of acquisitions against a fresh queue completes the
longest prefix the tokens cover, in arrival order, and queues the
rest in arrival order. -/
theorem runAcquires_fresh (limit : Int) (t : Int) (ht : 0 ≤ t)
    (done ws : List Nat) :
    runLimiterFrom limit ⟨t, [], done⟩ (ws.map .acquire) =
      ⟨t - min t ws.length, ws.drop t.toNat, done ++ ws.take t.toNat⟩ := by
  induction ws generalizing t done with
  | nil =>
    simp only [List.map_nil, runLimiterFrom, List.foldl_nil, List.length_nil,
      Nat.cast_zero, List.drop_nil, List.take_nil, List.append_nil,
      LimiterState.mk.injEq, and_true, true_and]
    omega
  | cons w ws ih =>
    by_cases hp : 0 < t
    · simp only [List.map_cons, runLimiterFrom, List.foldl_cons, limiterStep,
        acquireStep, if_pos hp]
      have hrec := ih (t - 1) (by omega) (done ++ [w])
      simp only [runLimiterFrom] at hrec
      rw [hrec]
      have h1 : t.toNat = (t - 1).toNat + 1 := by omega
      rw [h1]
      simp only [List.drop_succ_cons, List.take_succ_cons, List.length_cons,
        LimiterState.mk.injEq, List.append_assoc, List.singleton_append,
        and_true, true_and]
      push_cast
      omega
    · have ht0 : t = 0 := by omega
      subst ht0
      simp only [List.map_cons, runLimiterFrom, List.foldl_cons, limiterStep,
        acquireStep]
      rw [if_neg (by omega)]
      have hzero := runAcquires_zero limit [] done ws
      simp only [runLimiterFrom, List.nil_append] at hzero
      rw [show (⟨0, [] ++ [w], done⟩ : LimiterState) = ⟨0, [w], done⟩ by simp]
      have hzw := runAcquires_zero limit [w] done ws
      simp only [runLimiterFrom] at hzw
      rw [hzw]
      simp only [Int.toNat_zero, List.drop_zero, List.take_zero, List.length_cons,
        List.append_nil, LimiterState.mk.injEq, List.singleton_append, and_true,
        true_and]
      push_cast
      omega

/-- C8: the token-bucket limiter.  For every non-negative capacity
and every event sequence from the fresh limiter: the remaining
token count is never negative; whenever waiters are queued the
bucket is exhausted, so a new arrival is appended to the back of
the queue and can never overtake queued waiters; a refill tick
resets the count to full capacity and then releases exactly the
longest prefix of the queue the capacity covers, in queue order;
and a burst of more acquisitions than the capacity within one
interval completes exactly the first `capacity` arrivals, queues
the excess in arrival order, and the excess completes only at the
next refill, which releases queued waiters up to capacity. -/
theorem c8_token_bucket (limit : Int) (hl : 0 ≤ limit) :
    (∀ events, 0 ≤ (runLimiter limit events).tokens) ∧
    (∀ events, (runLimiter limit events).queue ≠ [] →
      (runLimiter limit events).tokens = 0) ∧
    (∀ s : LimiterState, refillStep limit s =
      ⟨limit - min limit s.queue.length, s.queue.drop limit.toNat,
        s.completed ++ s.queue.take limit.toNat⟩) ∧
    (∀ events w, (runLimiter limit events).queue ≠ [] →
      acquireStep w (runLimiter limit events) =
        ⟨(runLimiter limit events).tokens,
          (runLimiter limit events).queue ++ [w],
          (runLimiter limit events).completed⟩) ∧
    (∀ ws : List Nat, limit < (ws.length : Int) →
      (runLimiter limit (ws.map .acquire)).completed = ws.take limit.toNat ∧
      (runLimiter limit (ws.map .acquire)).queue = ws.drop limit.toNat ∧
      (runLimiterFrom limit (runLimiter limit (ws.map .acquire)) [.refill]).completed =
        ws.take limit.toNat ++ (ws.drop limit.toNat).take limit.toNat) := by
  have hinit : LimiterInv (limiterInit limit) := ⟨hl, fun hq => absurd rfl hq⟩
  have hinv : ∀ events, LimiterInv (runLimiter limit events) :=
    fun events => runLimiterFrom_inv limit hl _ hinit events
  refine ⟨fun events => (hinv events).1, fun events => (hinv events).2, ?_, ?_, ?_⟩
  · intro s
    simp [refillStep, processQueue_eq limit hl]
  · intro events w hq
    have hz := (hinv events).2 hq
    simp only [acquireStep, hz]
    rw [if_neg (by omega)]
  · intro ws hlen
    have hrun : runLimiter limit (ws.map .acquire) =
        ⟨limit - min limit ws.length, ws.drop limit.toNat, ws.take limit.toNat⟩ := by
      have hfresh := runAcquires_fresh limit limit hl [] ws
      simpa [runLimiter, limiterInit] using hfresh
    refine ⟨by rw [hrun], by rw [hrun], ?_⟩
    simp only [runLimiterFrom, List.foldl_cons, List.foldl_nil, limiterStep]
    rw [hrun]
    simp [refillStep, processQueue_eq limit hl]

/-- Witness for C8 at capacity 2 with a burst of three
acquisitions followed by a refill. -/
theorem c8_witness :
    0 ≤ (runLimiter 2 [.acquire 0, .acquire 1, .acquire 2, .refill]).tokens ∧
    (runLimiter 2 ([0, 1, 2].map .acquire)).completed = [0, 1] ∧
    (runLimiter 2 ([0, 1, 2].map .acquire)).queue = [2] ∧
    (runLimiterFrom 2 (runLimiter 2 ([0, 1, 2].map .acquire)) [.refill]).completed =
      [0, 1, 2] := by
  have h := c8_token_bucket 2 (by decide)
  have hb := h.2.2.2.2 [0, 1, 2] (by decide)
  refine ⟨h.1 _, ?_, ?_, ?_⟩
  · rw [hb.1]
    rfl
  · rw [hb.2.1]
    rfl
  · rw [hb.2.2]
    rfl

end Salto
